import Mathlib

/-!
Verification development for the OrkGame backend core: the effect resolver
(backend/action.py), the combat state machine and persistence store
(backend/storage.py) and the IPC relay (backend/ipc.py).

Modelling conventions:
* Python ints are modelled as ℤ, Python float arithmetic as exact rational
  arithmetic over ℚ (the source only ever divides by small integers and
  multiplies by 0.2, where exact and IEEE evaluation agree on every value
  the program feeds to int() and math.ceil()).
* The random module is modelled by a record holding one fixed outcome of
  every draw a single resolution can make; theorems quantify over it.
* The state-mutating method GameSession.act is modelled as a function from
  the old session to a result carrying the new session.  Pydantic v2
  rejects assignment to an attribute a model does not declare, and line
  108 of storage.py assigns to the undeclared attribute enemymax, so the
  kill branch raises ValueError mid-way; the result type has an error
  constructor carrying the partially mutated session that the exception
  leaves behind in the session table.
-/

/-- Python int() applied to a (finite) float value, modelled on ℚ:
truncation toward zero. -/
def pyInt (q : ℚ) : ℤ := if 0 ≤ q then ⌊q⌋ else -⌊-q⌋

/-- action.py lines 27-28: fail_dmg_boost_loss returns
int(-0.2 * random.randint(0, 8) + 10); roll stands for the randint draw. -/
def fail_dmg_boost_loss (roll : ℕ) : ℤ := pyInt (-0.2 * (roll : ℚ) + 10)

/-- action.py lines 31-40: the Effect value object, all fields Python ints
defaulting to 0. -/
structure Effect where
  self_heal : ℤ := 0
  self_damage : ℤ := 0
  enemy_damage : ℤ := 0
  enemy_heal : ℤ := 0
  gain_armor : ℤ := 0
  gain_damage_boost : ℤ := 0
  loose_armor : ℤ := 0
  loose_damage_boost : ℤ := 0
deriving DecidableEq, Repr

/-- action.py lines 43-49: the closed action enumeration. -/
inductive ActionEnum where
  | shoot_rocket
  | rage_up
  | patch_up
  | charge
  | throw_granade
  | fire_flamethrower
deriving DecidableEq, Repr

/-- The StrEnum string value of each member; note patch_up = "heal". -/
def ActionEnum.val : ActionEnum → String
  | .shoot_rocket => "shoot_rocket"
  | .rage_up => "rage_up"
  | .patch_up => "heal"
  | .charge => "charge"
  | .throw_granade => "throw_granade"
  | .fire_flamethrower => "fire_flamethrower"

/-- ActionEnum(action) member lookup by value; none models the ValueError
raised on an unrecognized identifier. -/
def ActionEnum.fromString (s : String) : Option ActionEnum :=
  if s = "shoot_rocket" then some .shoot_rocket
  else if s = "rage_up" then some .rage_up
  else if s = "heal" then some .patch_up
  else if s = "charge" then some .charge
  else if s = "throw_granade" then some .throw_granade
  else if s = "fire_flamethrower" then some .fire_flamethrower
  else none

/-- One fixed outcome of the random source for a single call of
ActionEnum.effect: hit is the boolean returned by the hit/fail predicate
of the chosen action (rocket_hit, charge_hit, granade_hit,
flamethrower_fail), dmg1 and dmg2 are the values of the randint draws of
the taken branch in source order, failRoll is the randint(0, 8) drawn
inside fail_dmg_boost_loss. -/
structure Draw where
  hit : Bool
  dmg1 : ℕ
  dmg2 : ℕ
  failRoll : ℕ
deriving DecidableEq, Repr

/-- action.py lines 51-87: effect resolution for each action, with the
random draws supplied by r.  shoot_rocket uses dmg1 for rocket_damage()
in whichever branch runs; patch_up uses dmg1 for the self heal randint(5, 50)
and dmg2 for the independent randint(5, 50) halved into enemy_heal. -/
def ActionEnum.effect (a : ActionEnum) (r : Draw) : Effect :=
  match a with
  | .shoot_rocket =>
      if r.hit then { enemy_damage := (r.dmg1 : ℤ) }
      else { self_damage := (r.dmg1 : ℤ),
             loose_damage_boost := fail_dmg_boost_loss r.failRoll }
  | .rage_up => { gain_damage_boost := (r.dmg1 : ℤ) }
  | .patch_up => { self_heal := (r.dmg1 : ℤ),
                   enemy_heal := pyInt ((r.dmg2 : ℚ) / 2) }
  | .charge =>
      if r.hit then { enemy_damage := 40, self_damage := 10 }
      else { self_damage := 30,
             loose_damage_boost := fail_dmg_boost_loss r.failRoll }
  | .throw_granade =>
      if r.hit then { enemy_damage := 25 }
      else { self_damage := 25,
             loose_damage_boost := fail_dmg_boost_loss r.failRoll }
  | .fire_flamethrower =>
      if r.hit then { enemy_damage := 100 }
      else { self_damage := 100,
             loose_damage_boost := fail_dmg_boost_loss r.failRoll }

/-- storage.py lines 22-24: the acting side. -/
inductive Actor where
  | player
  | enemy
deriving DecidableEq, Repr

/-- The StrEnum value of each Actor member. -/
def Actor.val : Actor → String
  | .player => "player"
  | .enemy => "enemy"

/-- Actor member lookup by value. -/
def Actor.fromString (s : String) : Option Actor :=
  if s = "player" then some .player
  else if s = "enemy" then some .enemy
  else none

/-- enemy.py lines 9-10: the Enemy model holds only a role label. -/
structure Enemy where
  role : String
deriving DecidableEq, Repr

/-- storage.py lines 27-30: one entry of the action log. -/
structure ActionRecord where
  name : ActionEnum
  actor : Actor
  effect : Effect
deriving DecidableEq, Repr

/-- storage.py lines 33-48: the combat session model, fields in
declaration order. -/
structure GameSession where
  name : String
  currenthealth : ℤ
  maxhealth : ℤ
  armor : ℤ
  rage : ℤ
  enemycurrenthealth : ℤ
  enemymaxhealth : ℤ
  enemyrage : ℤ
  enemyarmor : ℤ
  gameover : Bool
  kills : ℤ
  current_enemy : Enemy
  actions : List ActionRecord
deriving DecidableEq, Repr

/-- storage.py lines 50-65: GameSession.new_session. -/
def GameSession.new_session (name : String) : GameSession :=
  { name := name
    currenthealth := 100
    maxhealth := 100
    armor := 1
    rage := 1
    enemycurrenthealth := 100
    enemymaxhealth := 100
    enemyrage := 1
    enemyarmor := 1
    gameover := false
    kills := 0
    current_enemy := { role := "Loota" }
    actions := [] }

/-- storage.py line 72: effect.self_damage * (1 / self.armor) * self.enemyrage,
the mitigated damage the player receives. -/
def selfMit (s : GameSession) (e : Effect) : ℚ :=
  (e.self_damage : ℚ) * (1 / (s.armor : ℚ)) * (s.enemyrage : ℚ)

/-- storage.py line 96: (effect.enemy_damage * (1 / self.enemyarmor)) * self.rage,
the mitigated damage the enemy receives (self.rage read after the rage
update of lines 90-93). -/
def enemyMit (s : GameSession) (e : Effect) : ℚ :=
  ((e.enemy_damage : ℚ) * (1 / (s.enemyarmor : ℚ))) * (s.rage : ℚ)

/-- storage.py lines 71-83: the player health update.  On survival the
new health is math.ceil(currenthealth + self_heal - mitigated damage),
then capped at maxhealth; otherwise health becomes 0 and gameover True. -/
def playerPhase (s : GameSession) (e : Effect) : GameSession :=
  if (s.currenthealth : ℚ) + (e.self_heal : ℚ) > selfMit s e then
    let c : ℤ := ⌈(s.currenthealth : ℚ) + (e.self_heal : ℚ) - selfMit s e⌉
    { s with currenthealth := if c > s.maxhealth then s.maxhealth else c }
  else
    { s with currenthealth := 0, gameover := true }

/-- storage.py lines 84-88: the armor update, floored at 1. -/
def armorPhase (s : GameSession) (e : Effect) : GameSession :=
  { s with armor :=
      if s.armor + e.gain_armor - e.loose_armor ≥ 1 then
        s.armor + e.gain_armor - e.loose_armor
      else 1 }

/-- storage.py lines 89-93: the rage update, floored at 1. -/
def ragePhase (s : GameSession) (e : Effect) : GameSession :=
  { s with rage :=
      if s.rage + e.gain_damage_boost - e.loose_damage_boost ≥ 1 then
        s.rage + e.gain_damage_boost - e.loose_damage_boost
      else 1 }

/-- Result of one GameSession.act call: ok is a normal return, err is the
ValueError raised on line 108 (see enemyPhase); both carry the session
object as the call leaves it, since the method mutates in place. -/
inductive ActResult where
  | ok : GameSession → ActResult
  | err : GameSession → ActResult
deriving DecidableEq, Repr

/-- The session state an act call leaves behind, whether or not it raised. -/
def ActResult.session : ActResult → GameSession
  | .ok s => s
  | .err s => s

/-- True when the act call returned without raising. -/
def ActResult.isOk : ActResult → Bool
  | .ok _ => true
  | .err _ => false

/-- storage.py lines 95-113: the enemy health update and the escalation
branch.  On enemy survival the new enemy health is capped at
enemymaxhealth and the action record is appended (line 113).  Otherwise
lines 106-107 increment kills and set enemycurrenthealth = 100 + 50 * kills,
and then line 108 executes self.enemymax = 100 + (50 * self.kills):
GameSession declares no field named enemymax, so pydantic v2 raises
ValueError there.  Lines 109-111 (enemyrage, enemyarmor, maxhealth) and
the append on line 113 never run; err carries the partially mutated
session the exception leaves behind. -/
def enemyPhase (s : GameSession) (a : ActionEnum) (e : Effect) : ActResult :=
  if (s.enemycurrenthealth : ℚ) + (e.enemy_heal : ℚ) > enemyMit s e then
    let c : ℤ := ⌈(s.enemycurrenthealth : ℚ) + (e.enemy_heal : ℚ) - enemyMit s e⌉
    ActResult.ok { s with
      enemycurrenthealth := if c > s.enemymaxhealth then s.enemymaxhealth else c
      actions := s.actions ++ [{ name := a, actor := Actor.player, effect := e }] }
  else
    ActResult.err { s with
      kills := s.kills + 1
      enemycurrenthealth := 100 + 50 * (s.kills + 1) }

/-- storage.py lines 71-113 in source order: player health, armor, rage,
then the enemy phase, applied to an already resolved effect. -/
def GameSession.applyEffect (s : GameSession) (a : ActionEnum) (e : Effect) : ActResult :=
  enemyPhase (ragePhase (armorPhase (playerPhase s e) e) e) a e

/-- storage.py line 67: GameSession.act(action, player_turn).  The effect
is resolved from the action and the random outcome r, then applied.  The
player_turn parameter is accepted and never read by the method body. -/
def GameSession.act (s : GameSession) (a : ActionEnum) (r : Draw) (player_turn : Bool) : ActResult :=
  s.applyEffect a (a.effect r)

/-- Sessions reachable from a new session by act calls; the state a call
leaves behind counts whether or not the call raised, since the method
mutates the stored object in place. -/
inductive Reachable : GameSession → Prop
  | new (name : String) : Reachable (GameSession.new_session name)
  | step (s : GameSession) (a : ActionEnum) (r : Draw) (b : Bool) :
      Reachable s → Reachable ((s.act a r b).session)

/-- The JSON value tree, the intermediate form of the pydantic snapshot
serialization (write_state dumps the session table to it, read_state
parses and validates it back). -/
inductive Json where
  | jnull
  | jbool (b : Bool)
  | jint (n : ℤ)
  | jstr (s : String)
  | jarr (xs : List Json)
  | jobj (fs : List (String × Json))

/-- Serialization of an Effect: pydantic dumps the fields in declaration
order. -/
def encodeEffect (e : Effect) : Json :=
  .jobj [("self_heal", .jint e.self_heal), ("self_damage", .jint e.self_damage),
         ("enemy_damage", .jint e.enemy_damage), ("enemy_heal", .jint e.enemy_heal),
         ("gain_armor", .jint e.gain_armor), ("gain_damage_boost", .jint e.gain_damage_boost),
         ("loose_armor", .jint e.loose_armor), ("loose_damage_boost", .jint e.loose_damage_boost)]

/-- Validation of an Effect from its serialized form. -/
def decodeEffect : Json → Option Effect
  | .jobj [("self_heal", .jint a), ("self_damage", .jint b),
           ("enemy_damage", .jint c), ("enemy_heal", .jint d),
           ("gain_armor", .jint f), ("gain_damage_boost", .jint g),
           ("loose_armor", .jint h), ("loose_damage_boost", .jint i)] =>
      some { self_heal := a, self_damage := b, enemy_damage := c, enemy_heal := d,
             gain_armor := f, gain_damage_boost := g, loose_armor := h,
             loose_damage_boost := i }
  | _ => none

/-- Serialization of one action log entry; StrEnum members dump as their
string values. -/
def encodeActionRecord (x : ActionRecord) : Json :=
  .jobj [("name", .jstr x.name.val), ("actor", .jstr x.actor.val),
         ("effect", encodeEffect x.effect)]

/-- Validation of one action log entry. -/
def decodeActionRecord : Json → Option ActionRecord
  | .jobj [("name", .jstr n), ("actor", .jstr a), ("effect", je)] =>
      match ActionEnum.fromString n, Actor.fromString a, decodeEffect je with
      | some n', some a', some e' => some { name := n', actor := a', effect := e' }
      | _, _, _ => none
  | _ => none

/-- Validation of the action log, entry by entry. -/
def decodeActions : List Json → Option (List ActionRecord)
  | [] => some []
  | j :: js =>
      match decodeActionRecord j, decodeActions js with
      | some x, some xs => some (x :: xs)
      | _, _ => none

/-- Serialization of a GameSession: all fields of storage.py lines 34-48
in declaration order. -/
def encodeSession (s : GameSession) : Json :=
  .jobj [("name", .jstr s.name),
         ("currenthealth", .jint s.currenthealth),
         ("maxhealth", .jint s.maxhealth),
         ("armor", .jint s.armor),
         ("rage", .jint s.rage),
         ("enemycurrenthealth", .jint s.enemycurrenthealth),
         ("enemymaxhealth", .jint s.enemymaxhealth),
         ("enemyrage", .jint s.enemyrage),
         ("enemyarmor", .jint s.enemyarmor),
         ("gameover", .jbool s.gameover),
         ("kills", .jint s.kills),
         ("current_enemy", .jobj [("role", .jstr s.current_enemy.role)]),
         ("actions", .jarr (s.actions.map encodeActionRecord))]

/-- Validation of a GameSession from its serialized form. -/
def decodeSession : Json → Option GameSession
  | .jobj [("name", .jstr nm),
           ("currenthealth", .jint ch),
           ("maxhealth", .jint mh),
           ("armor", .jint ar),
           ("rage", .jint rg),
           ("enemycurrenthealth", .jint ech),
           ("enemymaxhealth", .jint emh),
           ("enemyrage", .jint erg),
           ("enemyarmor", .jint ear),
           ("gameover", .jbool go),
           ("kills", .jint kl),
           ("current_enemy", .jobj [("role", .jstr role)]),
           ("actions", .jarr actionsJson)] =>
      (decodeActions actionsJson).map fun acts =>
        { name := nm, currenthealth := ch, maxhealth := mh, armor := ar,
          rage := rg, enemycurrenthealth := ech, enemymaxhealth := emh,
          enemyrage := erg, enemyarmor := ear, gameover := go, kills := kl,
          current_enemy := { role := role }, actions := acts }
  | _ => none

/-- The session table dict[str, GameSession] (storage.py line 116), as an
ordered association list, the way a Python dict and a JSON object both
preserve entries. -/
def SessionTable : Type := List (String × GameSession)

/-- SessionStorage.dump_json: the table serialized as one JSON object
mapping each key to the serialized session. -/
def dump_json (t : SessionTable) : Json :=
  .jobj (t.map fun p => (p.1, encodeSession p.2))

/-- SessionStorage.validate_json on an already parsed JSON tree. -/
def validate_json : Json → Option SessionTable
  | .jobj fs =>
      let rec go : List (String × Json) → Option (List (String × GameSession))
        | [] => some []
        | (k, j) :: rest =>
            match decodeSession j, go rest with
            | some s, some r => some ((k, s) :: r)
            | _, _ => none
      go fs
  | _ => none

/-- storage.py lines 164-166: write_state dumps the whole table. -/
def write_state (t : SessionTable) : Json := dump_json t

/-- storage.py lines 155-161: read_state; the argument is the parsed
content of the state file, none standing for a missing or syntactically
malformed file.  Every failure path returns the empty table. -/
def read_state (content : Option Json) : SessionTable :=
  match content with
  | none => []
  | some j =>
      match validate_json j with
      | some t => t
      | none => []

/-- ipc.py lines 48-50: the wire message of the relay protocol. -/
structure IPCMessage where
  session_name : String
  action : String
  player_turn : Bool
deriving DecidableEq, Repr

/-- Replacement of the entry a successfully looked-up session name maps
to, reflecting that act mutates the stored object in place. -/
def updateTable (t : SessionTable) (key : String) (s : GameSession) : SessionTable :=
  List.map (fun p => if p.1 = key then (key, s) else p) t

/-- ipc.py lines 21-35: handling of one relay connection carrying an
already parsed message.  state[...] raises KeyError on a missing session
name and ActionEnum(action) raises ValueError on an unknown action
identifier, both before any mutation; the except block catches every
exception and logs it, so the handler always returns and the listener
survives.  The Bool records whether the failure log line was emitted. -/
def handle_client (state : SessionTable) (msg : IPCMessage) (r : Draw) :
    SessionTable × Bool :=
  match List.lookup msg.session_name state with
  | none => (state, true)
  | some s =>
      match ActionEnum.fromString msg.action with
      | none => (state, true)
      | some a =>
          match s.act a r msg.player_turn with
          | .ok s' => (updateTable state msg.session_name s', false)
          | .err s' => (updateTable state msg.session_name s', true)

theorem ActResult.session_ok (s : GameSession) : (ActResult.ok s).session = s := rfl

theorem ActResult.session_err (s : GameSession) : (ActResult.err s).session = s := rfl

theorem pyInt_nonneg (q : ℚ) (h : 0 ≤ q) : 0 ≤ pyInt q := by
  unfold pyInt
  rw [if_pos h]
  exact Int.floor_nonneg.mpr h

theorem fail_dmg_boost_loss_nonneg (roll : ℕ) (h : roll ≤ 8) :
    0 ≤ fail_dmg_boost_loss roll := by
  unfold fail_dmg_boost_loss
  apply pyInt_nonneg
  have hc : (roll : ℚ) ≤ 8 := by exact_mod_cast h
  linarith

theorem playerPhase_armor (s : GameSession) (e : Effect) :
    (playerPhase s e).armor = s.armor := by
  unfold playerPhase; split <;> rfl

theorem playerPhase_rage (s : GameSession) (e : Effect) :
    (playerPhase s e).rage = s.rage := by
  unfold playerPhase; split <;> rfl

theorem playerPhase_maxhealth (s : GameSession) (e : Effect) :
    (playerPhase s e).maxhealth = s.maxhealth := by
  unfold playerPhase; split <;> rfl

theorem playerPhase_enemycurrenthealth (s : GameSession) (e : Effect) :
    (playerPhase s e).enemycurrenthealth = s.enemycurrenthealth := by
  unfold playerPhase; split <;> rfl

theorem playerPhase_enemymaxhealth (s : GameSession) (e : Effect) :
    (playerPhase s e).enemymaxhealth = s.enemymaxhealth := by
  unfold playerPhase; split <;> rfl

theorem playerPhase_enemyrage (s : GameSession) (e : Effect) :
    (playerPhase s e).enemyrage = s.enemyrage := by
  unfold playerPhase; split <;> rfl

theorem playerPhase_enemyarmor (s : GameSession) (e : Effect) :
    (playerPhase s e).enemyarmor = s.enemyarmor := by
  unfold playerPhase; split <;> rfl

theorem playerPhase_kills (s : GameSession) (e : Effect) :
    (playerPhase s e).kills = s.kills := by
  unfold playerPhase; split <;> rfl

theorem playerPhase_actions (s : GameSession) (e : Effect) :
    (playerPhase s e).actions = s.actions := by
  unfold playerPhase; split <;> rfl

theorem playerPhase_surv (s : GameSession) (e : Effect)
    (h : (s.currenthealth : ℚ) + (e.self_heal : ℚ) > selfMit s e) :
    playerPhase s e = { s with currenthealth :=
      if ⌈(s.currenthealth : ℚ) + (e.self_heal : ℚ) - selfMit s e⌉ > s.maxhealth
      then s.maxhealth
      else ⌈(s.currenthealth : ℚ) + (e.self_heal : ℚ) - selfMit s e⌉ } := by
  unfold playerPhase
  rw [if_pos h]

theorem playerPhase_lethal (s : GameSession) (e : Effect)
    (h : ¬ ((s.currenthealth : ℚ) + (e.self_heal : ℚ) > selfMit s e)) :
    playerPhase s e = { s with currenthealth := 0, gameover := true } := by
  unfold playerPhase
  rw [if_neg h]

theorem playerPhase_surv_currenthealth (s : GameSession) (e : Effect)
    (h : (s.currenthealth : ℚ) + (e.self_heal : ℚ) > selfMit s e) :
    (playerPhase s e).currenthealth =
      if ⌈(s.currenthealth : ℚ) + (e.self_heal : ℚ) - selfMit s e⌉ > s.maxhealth
      then s.maxhealth
      else ⌈(s.currenthealth : ℚ) + (e.self_heal : ℚ) - selfMit s e⌉ := by
  rw [playerPhase_surv s e h]

theorem playerPhase_surv_gameover (s : GameSession) (e : Effect)
    (h : (s.currenthealth : ℚ) + (e.self_heal : ℚ) > selfMit s e) :
    (playerPhase s e).gameover = s.gameover := by
  rw [playerPhase_surv s e h]

theorem playerPhase_lethal_currenthealth (s : GameSession) (e : Effect)
    (h : ¬ ((s.currenthealth : ℚ) + (e.self_heal : ℚ) > selfMit s e)) :
    (playerPhase s e).currenthealth = 0 := by
  rw [playerPhase_lethal s e h]

theorem playerPhase_lethal_gameover (s : GameSession) (e : Effect)
    (h : ¬ ((s.currenthealth : ℚ) + (e.self_heal : ℚ) > selfMit s e)) :
    (playerPhase s e).gameover = true := by
  rw [playerPhase_lethal s e h]

theorem playerPhase_gameover_mono (s : GameSession) (e : Effect)
    (h : s.gameover = true) : (playerPhase s e).gameover = true := by
  unfold playerPhase; split <;> simp [h]

theorem enemyPhase_session_currenthealth (s : GameSession) (a : ActionEnum) (e : Effect) :
    ((enemyPhase s a e).session).currenthealth = s.currenthealth := by
  unfold enemyPhase; split <;> rfl

theorem enemyPhase_session_gameover (s : GameSession) (a : ActionEnum) (e : Effect) :
    ((enemyPhase s a e).session).gameover = s.gameover := by
  unfold enemyPhase; split <;> rfl

theorem enemyPhase_session_armor (s : GameSession) (a : ActionEnum) (e : Effect) :
    ((enemyPhase s a e).session).armor = s.armor := by
  unfold enemyPhase; split <;> rfl

theorem enemyPhase_session_rage (s : GameSession) (a : ActionEnum) (e : Effect) :
    ((enemyPhase s a e).session).rage = s.rage := by
  unfold enemyPhase; split <;> rfl

theorem enemyPhase_session_maxhealth (s : GameSession) (a : ActionEnum) (e : Effect) :
    ((enemyPhase s a e).session).maxhealth = s.maxhealth := by
  unfold enemyPhase; split <;> rfl

theorem enemyPhase_session_enemymaxhealth (s : GameSession) (a : ActionEnum) (e : Effect) :
    ((enemyPhase s a e).session).enemymaxhealth = s.enemymaxhealth := by
  unfold enemyPhase; split <;> rfl

theorem enemyPhase_session_enemyrage (s : GameSession) (a : ActionEnum) (e : Effect) :
    ((enemyPhase s a e).session).enemyrage = s.enemyrage := by
  unfold enemyPhase; split <;> rfl

theorem enemyPhase_session_enemyarmor (s : GameSession) (a : ActionEnum) (e : Effect) :
    ((enemyPhase s a e).session).enemyarmor = s.enemyarmor := by
  unfold enemyPhase; split <;> rfl

theorem enemyPhase_surv (s : GameSession) (a : ActionEnum) (e : Effect)
    (h : (s.enemycurrenthealth : ℚ) + (e.enemy_heal : ℚ) > enemyMit s e) :
    enemyPhase s a e = ActResult.ok { s with
      enemycurrenthealth :=
        if ⌈(s.enemycurrenthealth : ℚ) + (e.enemy_heal : ℚ) - enemyMit s e⌉ > s.enemymaxhealth
        then s.enemymaxhealth
        else ⌈(s.enemycurrenthealth : ℚ) + (e.enemy_heal : ℚ) - enemyMit s e⌉
      actions := s.actions ++ [{ name := a, actor := Actor.player, effect := e }] } := by
  unfold enemyPhase
  rw [if_pos h]

theorem enemyPhase_kill (s : GameSession) (a : ActionEnum) (e : Effect)
    (h : ¬ ((s.enemycurrenthealth : ℚ) + (e.enemy_heal : ℚ) > enemyMit s e)) :
    enemyPhase s a e = ActResult.err { s with
      kills := s.kills + 1
      enemycurrenthealth := 100 + 50 * (s.kills + 1) } := by
  unfold enemyPhase
  rw [if_neg h]

theorem act_unfold (s : GameSession) (a : ActionEnum) (r : Draw) (b : Bool) :
    s.act a r b =
      enemyPhase (ragePhase (armorPhase (playerPhase s (a.effect r)) (a.effect r)) (a.effect r))
        a (a.effect r) := rfl

theorem act_session_currenthealth (s : GameSession) (a : ActionEnum) (r : Draw) (b : Bool) :
    ((s.act a r b).session).currenthealth = (playerPhase s (a.effect r)).currenthealth := by
  rw [act_unfold, enemyPhase_session_currenthealth]
  rfl

theorem act_session_gameover (s : GameSession) (a : ActionEnum) (r : Draw) (b : Bool) :
    ((s.act a r b).session).gameover = (playerPhase s (a.effect r)).gameover := by
  rw [act_unfold, enemyPhase_session_gameover]
  rfl

theorem act_session_maxhealth (s : GameSession) (a : ActionEnum) (r : Draw) (b : Bool) :
    ((s.act a r b).session).maxhealth = s.maxhealth := by
  rw [act_unfold, enemyPhase_session_maxhealth]
  simp only [ragePhase, armorPhase, playerPhase_maxhealth]

theorem act_session_armor (s : GameSession) (a : ActionEnum) (r : Draw) (b : Bool) :
    ((s.act a r b).session).armor =
      if s.armor + (a.effect r).gain_armor - (a.effect r).loose_armor ≥ 1
      then s.armor + (a.effect r).gain_armor - (a.effect r).loose_armor
      else 1 := by
  rw [act_unfold, enemyPhase_session_armor]
  simp only [ragePhase, armorPhase, playerPhase_armor]

theorem act_session_rage (s : GameSession) (a : ActionEnum) (r : Draw) (b : Bool) :
    ((s.act a r b).session).rage =
      if s.rage + (a.effect r).gain_damage_boost - (a.effect r).loose_damage_boost ≥ 1
      then s.rage + (a.effect r).gain_damage_boost - (a.effect r).loose_damage_boost
      else 1 := by
  rw [act_unfold, enemyPhase_session_rage]
  simp only [ragePhase, armorPhase, playerPhase_rage]

/-- C4: on every apply call the next player health is the ceiling of
currenthealth + self_heal - self_damage * (1 / armor) * enemyrage; when
currenthealth + self_heal is at most the mitigated damage the health is
clamped to 0 and gameover is set, and otherwise the result is clamped
into the interval from 0 to maxhealth and gameover is left unchanged. -/
theorem player_health_update_rule (s : GameSession) (a : ActionEnum) (r : Draw) (b : Bool)
    (hmax : 0 ≤ s.maxhealth) :
    ((s.currenthealth : ℚ) + ((a.effect r).self_heal : ℚ) > selfMit s (a.effect r) →
      ((s.act a r b).session).currenthealth
        = max 0 (min s.maxhealth
            ⌈(s.currenthealth : ℚ) + ((a.effect r).self_heal : ℚ) - selfMit s (a.effect r)⌉)
      ∧ ((s.act a r b).session).gameover = s.gameover)
    ∧ ((s.currenthealth : ℚ) + ((a.effect r).self_heal : ℚ) ≤ selfMit s (a.effect r) →
      ((s.act a r b).session).currenthealth = 0
      ∧ ((s.act a r b).session).gameover = true)
    ∧ 0 ≤ ((s.act a r b).session).currenthealth
    ∧ ((s.act a r b).session).currenthealth ≤ s.maxhealth := by
  have hch := act_session_currenthealth s a r b
  have hgo := act_session_gameover s a r b
  by_cases h : (s.currenthealth : ℚ) + ((a.effect r).self_heal : ℚ) > selfMit s (a.effect r)
  · rw [playerPhase_surv_currenthealth s (a.effect r) h] at hch
    rw [playerPhase_surv_gameover s (a.effect r) h] at hgo
    have hc1 : 1 ≤ ⌈(s.currenthealth : ℚ) + ((a.effect r).self_heal : ℚ) - selfMit s (a.effect r)⌉ :=
      Int.ceil_pos.mpr (by linarith)
    refine ⟨fun _ => ⟨?_, hgo⟩, fun hle => absurd h (by linarith), ?_, ?_⟩
    · rw [hch]; split_ifs <;> omega
    · rw [hch]; split_ifs <;> omega
    · rw [hch]; split_ifs <;> omega
  · rw [playerPhase_lethal_currenthealth s (a.effect r) h] at hch
    rw [playerPhase_lethal_gameover s (a.effect r) h] at hgo
    exact ⟨fun hgt => absurd hgt h, fun _ => ⟨hch, hgo⟩,
      by rw [hch], by rw [hch]; exact hmax⟩

/-- C5: from any session with armor and rage at least 1, every apply call
keeps armor and rage at least 1; a loss pushing either below 1 resets it
to exactly 1, and otherwise the new value is the old value plus the gains
minus the losses. -/
theorem armor_rage_floor (s : GameSession) (a : ActionEnum) (r : Draw) (b : Bool)
    (ha : 1 ≤ s.armor) (hr : 1 ≤ s.rage) :
    (1 ≤ ((s.act a r b).session).armor ∧ 1 ≤ ((s.act a r b).session).rage)
    ∧ (s.armor + (a.effect r).gain_armor - (a.effect r).loose_armor < 1 →
        ((s.act a r b).session).armor = 1)
    ∧ (1 ≤ s.armor + (a.effect r).gain_armor - (a.effect r).loose_armor →
        ((s.act a r b).session).armor
          = s.armor + (a.effect r).gain_armor - (a.effect r).loose_armor)
    ∧ (s.rage + (a.effect r).gain_damage_boost - (a.effect r).loose_damage_boost < 1 →
        ((s.act a r b).session).rage = 1)
    ∧ (1 ≤ s.rage + (a.effect r).gain_damage_boost - (a.effect r).loose_damage_boost →
        ((s.act a r b).session).rage
          = s.rage + (a.effect r).gain_damage_boost - (a.effect r).loose_damage_boost) := by
  have h1 := act_session_armor s a r b
  have h2 := act_session_rage s a r b
  refine ⟨⟨?_, ?_⟩, fun h => ?_, fun h => ?_, fun h => ?_, fun h => ?_⟩ <;>
    [skip; skip; rw [h1]; rw [h1]; rw [h2]; rw [h2]] <;>
    first
    | (rw [h1]; split_ifs <;> omega)
    | (rw [h2]; split_ifs <;> omega)
    | (split_ifs <;> omega)

theorem enemyPhase_ok_actions (s : GameSession) (a : ActionEnum) (e : Effect) (s' : GameSession)
    (h : enemyPhase s a e = ActResult.ok s') :
    s'.actions = s.actions ++ [{ name := a, actor := Actor.player, effect := e }] := by
  unfold enemyPhase at h
  split at h
  · injection h with h'
    subst h'
    rfl
  · exact ActResult.noConfusion h

theorem act_inner_actions (s : GameSession) (a : ActionEnum) (r : Draw) :
    (ragePhase (armorPhase (playerPhase s (a.effect r)) (a.effect r)) (a.effect r)).actions
      = s.actions := by
  simp only [ragePhase, armorPhase, playerPhase_actions]

/-- C2 (amended): a lethal net-damage computation sets currenthealth to 0
and gameover to true at that call, and gameover once true is never
cleared by a later apply call; subsequent apply calls can however still
increase currenthealth, since act never consults gameover. -/
theorem lethal_zeroes_health_and_gameover_persists (s : GameSession) (a : ActionEnum)
    (r : Draw) (b : Bool) :
    ((s.currenthealth : ℚ) + ((a.effect r).self_heal : ℚ) ≤ selfMit s (a.effect r) →
      ((s.act a r b).session).currenthealth = 0
      ∧ ((s.act a r b).session).gameover = true)
    ∧ (s.gameover = true → ((s.act a r b).session).gameover = true) := by
  have hch := act_session_currenthealth s a r b
  have hgo := act_session_gameover s a r b
  constructor
  · intro hle
    have h : ¬ ((s.currenthealth : ℚ) + ((a.effect r).self_heal : ℚ) > selfMit s (a.effect r)) :=
      not_lt.mpr hle
    rw [playerPhase_lethal_currenthealth s (a.effect r) h] at hch
    rw [playerPhase_lethal_gameover s (a.effect r) h] at hgo
    exact ⟨hch, hgo⟩
  · intro hgame
    rw [hgo]
    exact playerPhase_gameover_mono s (a.effect r) hgame

/-- C6: for every action and every fixed outcome of the random source
with the fail roll in its randint(0, 8) range, all eight fields of the
resolved Effect are non-negative. -/
theorem effect_fields_nonneg (a : ActionEnum) (r : Draw) (h : r.failRoll ≤ 8) :
    0 ≤ (a.effect r).self_heal ∧ 0 ≤ (a.effect r).self_damage
    ∧ 0 ≤ (a.effect r).enemy_damage ∧ 0 ≤ (a.effect r).enemy_heal
    ∧ 0 ≤ (a.effect r).gain_armor ∧ 0 ≤ (a.effect r).gain_damage_boost
    ∧ 0 ≤ (a.effect r).loose_armor ∧ 0 ≤ (a.effect r).loose_damage_boost := by
  have hf := fail_dmg_boost_loss_nonneg r.failRoll h
  have hh : 0 ≤ pyInt ((r.dmg2 : ℚ) / 2) := pyInt_nonneg _ (by positivity)
  cases a <;> simp only [ActionEnum.effect] <;> try split_ifs
  all_goals try dsimp only
  all_goals refine ⟨by omega, by omega, by omega, by omega, by omega, by omega, by omega, by omega⟩

/-- C7: a successful apply call appends exactly one record to the actions
log: the length grows by exactly 1 and every previously existing entry is
unchanged. -/
theorem actions_append_only (s : GameSession) (a : ActionEnum) (r : Draw) (b : Bool)
    (s' : GameSession) (hok : s.act a r b = ActResult.ok s') :
    s'.actions = s.actions ++ [{ name := a, actor := Actor.player, effect := a.effect r }]
    ∧ s'.actions.length = s.actions.length + 1
    ∧ ∀ i, i < s.actions.length → s'.actions[i]? = s.actions[i]? := by
  rw [act_unfold] at hok
  have hacts := enemyPhase_ok_actions _ _ _ _ hok
  rw [act_inner_actions] at hacts
  refine ⟨hacts, by rw [hacts]; simp, fun i hi => ?_⟩
  rw [hacts]
  exact List.getElem?_append_left hi

/-- C10: the player_turn flag never influences the resulting session, and
the record appended by a successful call always carries actor = player. -/
theorem turn_flag_immaterial (s : GameSession) (a : ActionEnum) (r : Draw) (b b' : Bool) :
    s.act a r b = s.act a r b'
    ∧ (∀ s', s.act a r b = ActResult.ok s' →
        s'.actions = s.actions ++ [{ name := a, actor := Actor.player, effect := a.effect r }]) := by
  refine ⟨rfl, fun s' hok => ?_⟩
  rw [act_unfold] at hok
  have hacts := enemyPhase_ok_actions _ _ _ _ hok
  rw [act_inner_actions] at hacts
  exact hacts

/-- C1: evaluation of the escalation branch at its first reachable
trigger (a fresh session, fire_flamethrower with the high-probability
branch, enemy_damage = 100).  The call raises (isOk = false) at the
undeclared-attribute assignment of storage.py line 108: kills and
enemycurrenthealth are already updated, but enemymaxhealth, enemyrage and
enemyarmor keep their old values, maxhealth is not increased and no
record is appended, contradicting the specified escalation. -/
theorem enemymax_typo_blocks_escalation :
    (((GameSession.new_session "k1").act .fire_flamethrower ⟨true, 0, 0, 0⟩ true)).isOk = false
    ∧ ((((GameSession.new_session "k1").act .fire_flamethrower ⟨true, 0, 0, 0⟩ true)).session).kills = 1
    ∧ ((((GameSession.new_session "k1").act .fire_flamethrower ⟨true, 0, 0, 0⟩ true)).session).enemycurrenthealth = 150
    ∧ ((((GameSession.new_session "k1").act .fire_flamethrower ⟨true, 0, 0, 0⟩ true)).session).enemymaxhealth = 100
    ∧ ((((GameSession.new_session "k1").act .fire_flamethrower ⟨true, 0, 0, 0⟩ true)).session).enemyrage = 1
    ∧ ((((GameSession.new_session "k1").act .fire_flamethrower ⟨true, 0, 0, 0⟩ true)).session).enemyarmor = 1
    ∧ ((((GameSession.new_session "k1").act .fire_flamethrower ⟨true, 0, 0, 0⟩ true)).session).maxhealth = 100
    ∧ ((((GameSession.new_session "k1").act .fire_flamethrower ⟨true, 0, 0, 0⟩ true)).session).actions = [] := by
  norm_num [GameSession.act, GameSession.applyEffect, GameSession.new_session,
    ActionEnum.effect, playerPhase, armorPhase, ragePhase, enemyPhase, selfMit, enemyMit,
    ActResult.session, ActResult.isOk]

/-- C3: a session reachable from a new session by a single apply call (a
fresh session hit by a successful fire_flamethrower, which defeats the
100-health enemy) violates the claimed invariant: its
enemycurrenthealth, 150, exceeds its enemymaxhealth, still 100, because
the escalation aborts at the storage.py line 108 typo before
enemymaxhealth is updated. -/
theorem kill_breaks_health_invariant :
    Reachable (((GameSession.new_session "k3").act .fire_flamethrower ⟨true, 0, 0, 0⟩ true).session)
    ∧ ¬ ((((GameSession.new_session "k3").act .fire_flamethrower ⟨true, 0, 0, 0⟩ true).session).enemycurrenthealth
          ≤ (((GameSession.new_session "k3").act .fire_flamethrower ⟨true, 0, 0, 0⟩ true).session).enemymaxhealth) := by
  constructor
  · exact Reachable.step _ _ _ _ (Reachable.new "k3")
  · norm_num [GameSession.act, GameSession.applyEffect, GameSession.new_session,
      ActionEnum.effect, playerPhase, armorPhase, ragePhase, enemyPhase, selfMit, enemyMit,
      ActResult.session]

/-- C2 (counterexample): a reachable session with gameover = true and
currenthealth = 0 (a fresh session after a backfiring flamethrower) on
which a subsequent apply call (patch_up healing 5) raises currenthealth
from 0 to 5, so an apply call after gameover can increase currenthealth. -/
theorem heal_after_gameover_raises_health :
    (((GameSession.new_session "c2").act .fire_flamethrower ⟨false, 0, 0, 0⟩ true).session).gameover = true
    ∧ (((GameSession.new_session "c2").act .fire_flamethrower ⟨false, 0, 0, 0⟩ true).session).currenthealth = 0
    ∧ (((((GameSession.new_session "c2").act .fire_flamethrower ⟨false, 0, 0, 0⟩ true).session).act
          .patch_up ⟨true, 5, 4, 0⟩ true).session).currenthealth = 5 := by
  norm_num [GameSession.act, GameSession.applyEffect, GameSession.new_session,
    ActionEnum.effect, playerPhase, armorPhase, ragePhase, enemyPhase, selfMit, enemyMit,
    ActResult.session, fail_dmg_boost_loss, pyInt]

theorem player_health_update_rule_witness :
    (((GameSession.new_session "w4").act .rage_up ⟨true, 3, 0, 0⟩ true).session).currenthealth = 100
    ∧ (((GameSession.new_session "w4").act .rage_up ⟨true, 3, 0, 0⟩ true).session).gameover = false := by
  have h := player_health_update_rule (GameSession.new_session "w4") .rage_up ⟨true, 3, 0, 0⟩ true
    (by decide)
  have hgt : ((GameSession.new_session "w4").currenthealth : ℚ)
      + ((ActionEnum.rage_up.effect ⟨true, 3, 0, 0⟩).self_heal : ℚ)
      > selfMit (GameSession.new_session "w4") (ActionEnum.rage_up.effect ⟨true, 3, 0, 0⟩) := by
    norm_num [GameSession.new_session, ActionEnum.effect, selfMit]
  obtain ⟨hch, hgo⟩ := h.1 hgt
  constructor
  · rw [hch]
    norm_num [GameSession.new_session, ActionEnum.effect, selfMit]
  · rw [hgo]
    rfl

theorem armor_rage_floor_witness :
    1 ≤ (((GameSession.new_session "w5").act .shoot_rocket ⟨false, 7, 0, 4⟩ true).session).armor
    ∧ (((GameSession.new_session "w5").act .shoot_rocket ⟨false, 7, 0, 4⟩ true).session).rage = 1 := by
  have h := armor_rage_floor (GameSession.new_session "w5") .shoot_rocket ⟨false, 7, 0, 4⟩ true
    (by decide) (by decide)
  refine ⟨h.1.1, ?_⟩
  apply h.2.2.2.1
  norm_num [GameSession.new_session, ActionEnum.effect, fail_dmg_boost_loss, pyInt]

theorem effect_fields_nonneg_witness :
    0 ≤ (ActionEnum.charge.effect ⟨false, 0, 0, 8⟩).self_heal
    ∧ 0 ≤ (ActionEnum.charge.effect ⟨false, 0, 0, 8⟩).self_damage
    ∧ 0 ≤ (ActionEnum.charge.effect ⟨false, 0, 0, 8⟩).enemy_damage
    ∧ 0 ≤ (ActionEnum.charge.effect ⟨false, 0, 0, 8⟩).enemy_heal
    ∧ 0 ≤ (ActionEnum.charge.effect ⟨false, 0, 0, 8⟩).gain_armor
    ∧ 0 ≤ (ActionEnum.charge.effect ⟨false, 0, 0, 8⟩).gain_damage_boost
    ∧ 0 ≤ (ActionEnum.charge.effect ⟨false, 0, 0, 8⟩).loose_armor
    ∧ 0 ≤ (ActionEnum.charge.effect ⟨false, 0, 0, 8⟩).loose_damage_boost :=
  effect_fields_nonneg .charge ⟨false, 0, 0, 8⟩ (by decide)

theorem actions_append_only_witness :
    ({ name := "w7", currenthealth := 100, maxhealth := 100, armor := 1, rage := 3,
       enemycurrenthealth := 100, enemymaxhealth := 100, enemyrage := 1, enemyarmor := 1,
       gameover := false, kills := 0, current_enemy := { role := "Loota" },
       actions := [{ name := ActionEnum.rage_up, actor := Actor.player,
                     effect := { gain_damage_boost := 2 } }] } : GameSession).actions
      = (GameSession.new_session "w7").actions
        ++ [{ name := ActionEnum.rage_up, actor := Actor.player,
              effect := ActionEnum.rage_up.effect ⟨true, 2, 0, 0⟩ }]
    ∧ ({ name := "w7", currenthealth := 100, maxhealth := 100, armor := 1, rage := 3,
         enemycurrenthealth := 100, enemymaxhealth := 100, enemyrage := 1, enemyarmor := 1,
         gameover := false, kills := 0, current_enemy := { role := "Loota" },
         actions := [{ name := ActionEnum.rage_up, actor := Actor.player,
                       effect := { gain_damage_boost := 2 } }] } : GameSession).actions.length
      = (GameSession.new_session "w7").actions.length + 1 := by
  have hok : (GameSession.new_session "w7").act .rage_up ⟨true, 2, 0, 0⟩ true
      = ActResult.ok
        { name := "w7", currenthealth := 100, maxhealth := 100, armor := 1, rage := 3,
          enemycurrenthealth := 100, enemymaxhealth := 100, enemyrage := 1, enemyarmor := 1,
          gameover := false, kills := 0, current_enemy := { role := "Loota" },
          actions := [{ name := ActionEnum.rage_up, actor := Actor.player,
                        effect := { gain_damage_boost := 2 } }] } := by
    norm_num [GameSession.act, GameSession.applyEffect, GameSession.new_session,
      ActionEnum.effect, playerPhase, armorPhase, ragePhase, enemyPhase, selfMit, enemyMit]
  have h := actions_append_only (GameSession.new_session "w7") .rage_up ⟨true, 2, 0, 0⟩ true _ hok
  exact ⟨h.1, h.2.1⟩

theorem turn_flag_immaterial_witness :
    (GameSession.new_session "w10").act .rage_up ⟨true, 0, 0, 0⟩ true
      = (GameSession.new_session "w10").act .rage_up ⟨true, 0, 0, 0⟩ false
    ∧ ({ name := "w10", currenthealth := 100, maxhealth := 100, armor := 1, rage := 1,
         enemycurrenthealth := 100, enemymaxhealth := 100, enemyrage := 1, enemyarmor := 1,
         gameover := false, kills := 0, current_enemy := { role := "Loota" },
         actions := [{ name := ActionEnum.rage_up, actor := Actor.player,
                       effect := { gain_damage_boost := 0 } }] } : GameSession).actions
        = (GameSession.new_session "w10").actions
          ++ [{ name := ActionEnum.rage_up, actor := Actor.player,
                effect := ActionEnum.rage_up.effect ⟨true, 0, 0, 0⟩ }] := by
  have h := turn_flag_immaterial (GameSession.new_session "w10") .rage_up ⟨true, 0, 0, 0⟩ true false
  refine ⟨h.1, ?_⟩
  apply h.2
  norm_num [GameSession.act, GameSession.applyEffect, GameSession.new_session,
    ActionEnum.effect, playerPhase, armorPhase, ragePhase, enemyPhase, selfMit, enemyMit]

theorem lethal_zeroes_health_witness :
    (((GameSession.new_session "w2").act .fire_flamethrower ⟨false, 0, 0, 0⟩ true).session).currenthealth = 0
    ∧ (((GameSession.new_session "w2").act .fire_flamethrower ⟨false, 0, 0, 0⟩ true).session).gameover = true := by
  have h := lethal_zeroes_health_and_gameover_persists (GameSession.new_session "w2")
    .fire_flamethrower ⟨false, 0, 0, 0⟩ true
  exact h.1 (by norm_num [GameSession.new_session, ActionEnum.effect, selfMit])

theorem decodeEffect_encodeEffect (e : Effect) : decodeEffect (encodeEffect e) = some e := rfl

theorem actionEnum_fromString_val (a : ActionEnum) : ActionEnum.fromString a.val = some a := by
  cases a <;> rfl

theorem actor_fromString_val (x : Actor) : Actor.fromString x.val = some x := by
  cases x <;> rfl

theorem decodeActionRecord_encode (x : ActionRecord) :
    decodeActionRecord (encodeActionRecord x) = some x := by
  simp [encodeActionRecord, decodeActionRecord, actionEnum_fromString_val,
    actor_fromString_val, decodeEffect_encodeEffect]

theorem decodeActions_encode (l : List ActionRecord) :
    decodeActions (l.map encodeActionRecord) = some l := by
  induction l with
  | nil => rfl
  | cons x rest ih => simp [decodeActions, decodeActionRecord_encode, ih]

theorem decodeSession_encodeSession (s : GameSession) :
    decodeSession (encodeSession s) = some s := by
  have h1 : decodeSession (encodeSession s)
      = (decodeActions (s.actions.map encodeActionRecord)).map fun acts =>
          { name := s.name, currenthealth := s.currenthealth, maxhealth := s.maxhealth,
            armor := s.armor, rage := s.rage, enemycurrenthealth := s.enemycurrenthealth,
            enemymaxhealth := s.enemymaxhealth, enemyrage := s.enemyrage,
            enemyarmor := s.enemyarmor, gameover := s.gameover, kills := s.kills,
            current_enemy := { role := s.current_enemy.role }, actions := acts } := rfl
  rw [h1, decodeActions_encode]
  rfl

theorem validate_json_go_encode (l : List (String × GameSession)) :
    validate_json.go (l.map fun p => (p.1, encodeSession p.2)) = some l := by
  induction l with
  | nil => rfl
  | cons p rest ih =>
      cases p
      simp [validate_json.go, decodeSession_encodeSession, ih]

/-- C8: serializing any session table with write_state and validating it
back with read_state returns a table equal to the original, for every
table of zero or more sessions with arbitrary field values. -/
theorem state_roundtrip (t : SessionTable) : read_state (some (write_state t)) = t := by
  show read_state (some (dump_json t)) = t
  simp [read_state, dump_json, validate_json, validate_json_go_encode]

/-- C9: a relay message whose session_name is absent from the table logs
the lookup failure and returns with the table unchanged: no session is
mutated, none is created, the key set and size are untouched and the
handler returns normally, so the listener survives. -/
theorem relay_missing_session_no_mutation (state : SessionTable) (msg : IPCMessage) (r : Draw)
    (h : List.lookup msg.session_name state = none) :
    handle_client state msg r = (state, true)
    ∧ (handle_client state msg r).1 = state
    ∧ List.length (handle_client state msg r).1 = List.length state
    ∧ List.map Prod.fst (handle_client state msg r).1 = List.map Prod.fst state := by
  have hh : handle_client state msg r = (state, true) := by
    unfold handle_client
    rw [h]
  exact ⟨hh, by rw [hh], by rw [hh], by rw [hh]⟩

theorem relay_missing_session_witness :
    handle_client ([] : SessionTable) ⟨"ghost", "heal", true⟩ ⟨true, 0, 0, 0⟩
      = (([] : SessionTable), true) :=
  (relay_missing_session_no_mutation ([] : SessionTable) ⟨"ghost", "heal", true⟩
    ⟨true, 0, 0, 0⟩ rfl).1
